import Mathlib

/-!
Shallow embedding of the two renderers of this repository:

* `src/transfer.py`   — resume JSON → PDF (`build_pdf`, `main`)
* `src/transferCL.py` — cover-letter JSON → PDF (`json_to_pdf`)

Blocks model the reportlab flowables the scripts append to `story`
(paragraphs with their style, spacers, horizontal rules, the two-column
tables produced by `table_line`, and bullet lists).  Spacer heights are
recorded in hundredths of a point (`Spacer(1, 1)` ↦ `100`,
`Spacer(1, 0.2*inch)` = 14.4pt ↦ `1440`).

File-system effects (`os.makedirs`, opening the output path for writing
inside `doc.build`) are modelled by an explicit `World` holding the set of
existing directories and the set of written files; opening a path for
writing succeeds exactly when its directory part is empty (current
directory) or already exists, which is the POSIX behaviour `doc.build`
relies on.  JSON parsing (`json.load`) is external library code and is
modelled by an `Except` parameter: the scripts only branch on its outcome.
The current date (`date.today()` in `transferCL.py`) is likewise an
ambient input, modelled as an explicit string parameter.
-/

/-- Paragraph styles as registered by `make_styles` in `transfer.py`
(`Name`, `Contact`, `Section`, the skills `SkillLine`) and by
`json_to_pdf` in `transferCL.py` (`Header`, `Body`, `Closing`).
The bold/italic two-column cell styles of `table_line` are carried by the
`Bool` flag of `Block.tableLine`, mirroring its `Bold` parameter. -/
inductive Style where
  | nameStyle
  | contactStyle
  | sectionStyle
  | skillLine
  | clHeader
  | clBody
  | clClosing
deriving DecidableEq

/-- An atomic visual unit appended to the `story` list. -/
inductive Block where
  | para (text : String) (style : Style)
  | spacerB (heightCenti : Nat)
  | hrule
  | tableLine (left : String) (right : String) (bold : Bool)
  | bullets (items : List String)
deriving DecidableEq

/-- The `basics` object of the resume JSON: every key is read with
`basics.get(key, "")`, so each field is optional. -/
structure Basics where
  name : Option String := none
  email : Option String := none
  phone : Option String := none
  linkedin : Option String := none
  github : Option String := none
  status : Option String := none
deriving DecidableEq

/-- An `education[]` / `experience[]` entry.  Both sections read the keys
`company`, `role`, `location`, `dates` (and `bullets` for experience) via
`.get` with defaults, so all are optional. -/
structure Entry where
  company : Option String := none
  role : Option String := none
  location : Option String := none
  dates : Option String := none
  bullets : Option (List String) := none
deriving DecidableEq

/-- A `projects[]` entry (`title`, `dates`, `bullets`). -/
structure Project where
  title : Option String := none
  dates : Option String := none
  bullets : Option (List String) := none
deriving DecidableEq

/-- The resume document: every top-level section is read with
`resume.get(key, default)`, so all are optional.  `skills` is a JSON
object; Python dicts preserve insertion order, so it is modelled as an
association list. -/
structure Resume where
  basics : Option Basics := none
  education : Option (List Entry) := none
  experience : Option (List Entry) := none
  projects : Option (List Project) := none
  skills : Option (List (String × List String)) := none
deriving DecidableEq

/-- The `applicant` object of the cover-letter JSON; `json_to_pdf` indexes all
five keys directly. -/
structure Applicant where
  name : String
  email : String
  phone : String
  linkedin : String
  github : String
deriving DecidableEq

/-- The `document.recipient` object of the cover-letter JSON. -/
structure Recipient where
  title : String
deriving DecidableEq

/-- The `document.closing` object of the cover-letter JSON. -/
structure ClosingPart where
  signature : String
  name : String
deriving DecidableEq

/-- The `document` object of the cover-letter JSON. -/
structure CLDocument where
  recipient : Recipient
  body : List String
  closing : ClosingPart
deriving DecidableEq

/-- Top level of the cover-letter JSON.  `data["applicant"]` and
`data["document"]` raise `KeyError` when absent, so the two keys are
modelled as `Option`s tested by the runner. -/
structure CLData where
  applicant : Option Applicant := none
  document : Option CLDocument := none
deriving DecidableEq

/-- An output path split as `os.path.dirname` / basename: `dirs` is the
list of directory components (empty for a bare filename). -/
structure FPath where
  dirs : List String
  file : String
deriving DecidableEq

/-- The file-system state: existing directories and written files. -/
structure World where
  dirs : List (List String)
  files : List FPath
deriving DecidableEq

/-- Fatal failures of a run: `json.decoder.JSONDecodeError` from
`json.load`, `KeyError` on a required key, `FileNotFoundError` from
`os.makedirs("")` or from opening the output file in a missing
directory. -/
inductive RunErr where
  | parse
  | missingField (key : String)
  | fileNotFound
deriving DecidableEq

-- ---------------------------------------------------------------------
-- transfer.py rendering helpers
-- ---------------------------------------------------------------------

/-- Function `join_contact_line` (transfer.py, lines 102-107): collect the truthy
values of `email`, `phone`, `linkedin`, `github` and join with `" | "`. -/
def join_contact_line (b : Basics) : String :=
  String.intercalate " | "
    (([b.email, b.phone, b.linkedin, b.github].map (fun o => o.getD "")).filter
      (fun v => v != ""))

/-- Python's `str.strip()` with no argument: drop whitespace from both
ends of the string (modelled on the character list). -/
def py_strip (s : String) : String :=
  ⟨(((s.data.dropWhile Char.isWhitespace).reverse).dropWhile
      Char.isWhitespace).reverse⟩

/-- The filter inside `bullet_list` (transfer.py, line 110): keep an entry
`b` iff `b and str(b).strip()` is truthy, i.e. `b` is non-empty and not
whitespace-only. -/
def bulletItems (bs : List String) : List String :=
  bs.filter (fun b => b != "" && py_strip b != "")

/-- Function `bullet_list` (transfer.py, lines 109-113): a `ListFlowable` holding
one bullet item per surviving entry (an empty `ListFlowable` when all
entries are dropped). -/
def bullet_list (bs : List String) : Block :=
  Block.bullets (bulletItems bs)

/-- Function `render_key_value_lines` (transfer.py, lines 115-141): one `SkillLine`
paragraph per category, text `<font name="Inter-Bold">cat:</font> ` plus
the values joined by `", "` (the `HEAVY` face falls back to
`family["BOLD"]`, which `register_family` names `Inter-Bold`). -/
def skill_line_block (kv : String × List String) : Block :=
  Block.para ("<font name=\"Inter-Bold\">" ++ kv.1 ++ ":</font> "
    ++ String.intercalate ", " kv.2) Style.skillLine

def render_key_value_lines (data : List (String × List String)) : List Block :=
  data.map skill_line_block

/-- Function `render_section_title` (transfer.py, lines 144-146). -/
def render_section_title (title : String) : List Block :=
  [Block.spacerB 200, Block.para title Style.sectionStyle, Block.hrule,
   Block.spacerB 200]

/-- Function `table_line` (transfer.py, lines 148-171): a one-row two-column table;
`bold` selects the `LeftCell`/`RightCell` styles, otherwise the italic
`LeftCellR`/`RightCellR` pair. -/
def table_line (left right : String) (bold : Bool) : Block :=
  Block.tableLine left right bold

-- ---------------------------------------------------------------------
-- transfer.py build_pdf: story construction per section
-- ---------------------------------------------------------------------

/-- Header blocks (transfer.py, lines 180-191): name paragraph when the
name is truthy; when the contact line is truthy, the contact paragraph and
then the `status` paragraph (unconditionally); a trailing `Spacer(1, 1)`. -/
def header_blocks (basics : Basics) : List Block :=
  (if basics.name.getD "" = "" then []
   else [Block.para (basics.name.getD "") Style.nameStyle])
  ++ (if join_contact_line basics = "" then []
      else [Block.para (join_contact_line basics) Style.contactStyle,
            Block.para (basics.status.getD "") Style.contactStyle])
  ++ [Block.spacerB 100]

/-- One education entry (transfer.py, lines 197-207).  The source binds
`degree = ed.get("company", "")` and `school = ed.get("role", "")`, then
emits `table_line(school, dates, True)` and
`table_line(degree, location, False)`: the bold top row shows the value of
the `role` key and the italic sub-row the value of the `company` key. -/
def education_entry_blocks (ed : Entry) : List Block :=
  [table_line (ed.role.getD "") (ed.dates.getD "") true,
   table_line (ed.company.getD "") (ed.location.getD "") false,
   Block.spacerB 100]

/-- Education section (transfer.py, lines 193-207). -/
def education_blocks (edus : List Entry) : List Block :=
  if edus = [] then []
  else render_section_title "Education" ++ edus.flatMap education_entry_blocks

/-- One experience entry (transfer.py, lines 215-227). -/
def experience_entry_blocks (e : Entry) : List Block :=
  [table_line (e.role.getD "") (e.dates.getD "") true,
   table_line (e.company.getD "") (e.location.getD "") false]
  ++ (if e.bullets.getD [] = [] then [] else [bullet_list (e.bullets.getD [])])
  ++ [Block.spacerB 100]

/-- Experience section (transfer.py, lines 211-227). -/
def experience_blocks (exps : List Entry) : List Block :=
  if exps = [] then []
  else render_section_title "Experience" ++ exps.flatMap experience_entry_blocks

/-- One project entry (transfer.py, lines 233-241). -/
def project_entry_blocks (p : Project) : List Block :=
  [table_line (p.title.getD "") (p.dates.getD "") true]
  ++ (if p.bullets.getD [] = [] then [] else [bullet_list (p.bullets.getD [])])
  ++ [Block.spacerB 100]

/-- Projects section (transfer.py, lines 230-241). -/
def projects_blocks (projs : List Project) : List Block :=
  if projs = [] then []
  else render_section_title "Projects" ++ projs.flatMap project_entry_blocks

/-- Skills section (transfer.py, lines 244-248). -/
def skills_blocks (skills : List (String × List String)) : List Block :=
  if skills = [] then []
  else render_section_title "Technical Skills" ++ render_key_value_lines skills

/-- The full `story` assembled by `build_pdf` (transfer.py, lines
176-248): header, then Education, Experience, Projects, Skills, each
section only when its list/dict is truthy. -/
def build_story (r : Resume) : List Block :=
  header_blocks (r.basics.getD {})
  ++ education_blocks (r.education.getD [])
  ++ experience_blocks (r.experience.getD [])
  ++ projects_blocks (r.projects.getD [])
  ++ skills_blocks (r.skills.getD [])

-- ---------------------------------------------------------------------
-- transferCL.py story construction
-- ---------------------------------------------------------------------

/-- The `story` assembled by `json_to_pdf` (transferCL.py, lines 32-55):
three header paragraphs, a spacer, the current date, the recipient
greeting, a spacer, the body paragraphs in order, the closing signature
and name.  `today` is the formatted `date.today()` string. -/
def cl_story (app : Applicant) (docv : CLDocument) (today : String) : List Block :=
  [Block.para ("<b>" ++ app.name ++ "</b>") Style.clHeader,
   Block.para (app.email ++ " | " ++ app.phone) Style.clHeader,
   Block.para ("<a href='" ++ app.linkedin ++ "'>" ++ app.linkedin ++ "</a> | "
     ++ "<a href='" ++ app.github ++ "'>" ++ app.github ++ "</a>") Style.clHeader,
   Block.spacerB 1440,
   Block.para today Style.clBody,
   Block.para ("Dear " ++ docv.recipient.title ++ ",") Style.clBody,
   Block.spacerB 720]
  ++ docv.body.map (fun p => Block.para p Style.clBody)
  ++ [Block.para docv.closing.signature Style.clClosing,
      Block.para docv.closing.name Style.clBody]

-- ---------------------------------------------------------------------
-- File-system effects and runners
-- ---------------------------------------------------------------------

/-- The chain of ancestor directories `os.makedirs` creates for a
non-empty directory path. -/
def ancestorDirs (ds : List String) : List (List String) :=
  (List.range ds.length).map (fun i => ds.take (i + 1))

/-- Effect of `os.makedirs(dirname, exist_ok=True)` on a non-empty
`dirname`: every ancestor directory now exists. -/
def makedirs (w : World) (ds : List String) : World :=
  { w with dirs := ancestorDirs ds ++ w.dirs }

/-- Opening `out` for writing (inside `doc.build`): succeeds and records
the file iff the directory part is empty (current directory) or exists;
otherwise `FileNotFoundError` and no file is created. -/
def open_write (w : World) (out : FPath) : World × Except RunErr Unit :=
  if out.dirs = [] ∨ out.dirs ∈ w.dirs then
    ({ w with files := out :: w.files }, Except.ok ())
  else (w, Except.error RunErr.fileNotFound)

/-- Function `build_pdf` (transfer.py, lines 176-259): builds the story, then
`doc.build(story)` opens the output path for writing.  No directory is
ever created. -/
def build_pdf (r : Resume) (out : FPath) (w : World) : World × Except RunErr Unit :=
  let _story := build_story r
  open_write w out

/-- Function `main` of transfer.py (lines 264-274): `json.load` happens before
`build_pdf`, so a parse failure leaves the world untouched. -/
def transfer_main (parsed : Except Unit Resume) (out : FPath) (w : World) :
    World × Except RunErr Unit :=
  match parsed with
  | Except.error _ => (w, Except.error RunErr.parse)
  | Except.ok r => build_pdf r out w

/-- Function `json_to_pdf` of transferCL.py (lines 11-58), in source order:
`json.load`; `data["applicant"]`; `data["document"]`;
`os.makedirs(os.path.dirname(output_path), exist_ok=True)` — which raises
`FileNotFoundError` when the dirname is empty, i.e. for a bare filename;
story construction; `doc.build` writes the file. -/
def json_to_pdf (parsed : Except Unit CLData) (out : FPath) (today : String)
    (w : World) : World × Except RunErr Unit :=
  match parsed with
  | Except.error _ => (w, Except.error RunErr.parse)
  | Except.ok data =>
    match data.applicant with
    | none => (w, Except.error (RunErr.missingField "applicant"))
    | some app =>
      match data.document with
      | none => (w, Except.error (RunErr.missingField "document"))
      | some docv =>
        if out.dirs = [] then (w, Except.error RunErr.fileNotFound)
        else
          let w1 := makedirs w out.dirs
          let _story := cl_story app docv today
          open_write w1 out

-- ---------------------------------------------------------------------
-- Statement vocabulary and concrete sample inputs
-- ---------------------------------------------------------------------

/-- Is this block a section-heading paragraph (the `Section` style is used
only by `render_section_title`)? -/
def is_section_heading : Block → Bool
  | Block.para _ Style.sectionStyle => true
  | _ => false

/-- Is this block a `SkillLine` paragraph (used only by
`render_key_value_lines`)? -/
def is_skill_line : Block → Bool
  | Block.para _ Style.skillLine => true
  | _ => false

/-- Is this block a `Contact`-styled paragraph (used only by the resume
header)? -/
def is_contact_para : Block → Bool
  | Block.para _ Style.contactStyle => true
  | _ => false

/-- A sample applicant for concrete instantiations. -/
def app0 : Applicant :=
  { name := "Jane Doe", email := "jane@example.com", phone := "555-0100",
    linkedin := "linkedin.com/in/janedoe", github := "github.com/janedoe" }

/-- A sample cover-letter document. -/
def doc0 : CLDocument :=
  { recipient := { title := "Hiring Manager" },
    body := ["I am writing to apply for the open position."],
    closing := { signature := "Sincerely,", name := "Jane Doe" } }

/-- A complete cover-letter input. -/
def cl0 : CLData := { applicant := some app0, document := some doc0 }

/-- A cover-letter input with the required `applicant` key absent. -/
def clMissing : CLData := { applicant := none, document := some doc0 }

/-- A minimal valid resume. -/
def resume0 : Resume := { basics := some { name := some "Jane Doe" } }

/-- The resume of the spec's skills example. -/
def resume_jane : Resume :=
  { basics := some { name := some "Jane Doe" },
    skills := some [("Programming", ["Python", "Go"])] }

/-- A resume with one experience entry carrying one bullet. -/
def resume_exp : Resume :=
  { experience := some [{ role := some "Engineer",
                          bullets := some ["Did things"] }] }

/-- A sample education entry whose school and degree differ. -/
def ed0 : Entry :=
  { company := some "Massachusetts Institute of Technology",
    role := some "BS in Computer Science",
    location := some "Cambridge, MA", dates := some "2016 - 2020" }

/-- A resume with a single education entry. -/
def resume_edu : Resume := { education := some [ed0] }

/-- An output path inside a (possibly missing) subdirectory. -/
def out_sub : FPath := { dirs := ["sub"], file := "resume.pdf" }

/-- An output path that is a bare filename. -/
def out_bare : FPath := { dirs := [], file := "resume.pdf" }

/-- An initial world with no directories and no files. -/
def w0 : World := { dirs := [], files := [] }

/-- Modelled from the spec: the education rendering the claim describes —
the bold top row shows the school (stored, per the source comment on
transfer.py line 198, in the `company` field) with the dates
right-aligned; the italic sub-row shows the degree (the `role` field)
with the location on the right. -/
def education_entry_blocks_claimed (ed : Entry) : List Block :=
  [table_line (ed.company.getD "") (ed.dates.getD "") true,
   table_line (ed.role.getD "") (ed.location.getD "") false,
   Block.spacerB 100]

-- ---------------------------------------------------------------------
-- Helper lemmas
-- ---------------------------------------------------------------------

theorem filter_flatMap_nil (p : Block → Bool) {α : Type} (f : α → List Block)
    (h : ∀ a, (f a).filter p = []) : ∀ l : List α, (l.flatMap f).filter p = []
  | [] => rfl
  | a :: t => by
    rw [List.flatMap_cons, List.filter_append, h a, filter_flatMap_nil p f h t,
      List.nil_append]

theorem filter_map_nil (p : Block → Bool) {α : Type} (f : α → Block)
    (h : ∀ a, p (f a) = false) : ∀ l : List α, (l.map f).filter p = []
  | [] => rfl
  | a :: t => by
    rw [List.map_cons, List.filter_cons, h a, filter_map_nil p f h t]
    simp

theorem self_mem_ancestorDirs (ds : List String) (h : ds ≠ []) :
    ds ∈ ancestorDirs ds := by
  have hpos : 0 < ds.length := List.length_pos.mpr h
  refine List.mem_map.mpr ⟨ds.length - 1, ?_, ?_⟩
  · exact List.mem_range.mpr (by omega)
  · rw [Nat.sub_add_cancel hpos, List.take_length]

theorem edu_entry_no_heading (ed : Entry) :
    (education_entry_blocks ed).filter is_section_heading = [] := rfl

theorem exp_entry_no_heading (e : Entry) :
    (experience_entry_blocks e).filter is_section_heading = [] := by
  unfold experience_entry_blocks
  split_ifs <;> rfl

theorem proj_entry_no_heading (p : Project) :
    (project_entry_blocks p).filter is_section_heading = [] := by
  unfold project_entry_blocks
  split_ifs <;> rfl

theorem filter_heading_header (b : Basics) :
    (header_blocks b).filter is_section_heading = [] := by
  unfold header_blocks
  split_ifs <;> rfl

theorem filter_heading_education (edus : List Entry) :
    (education_blocks edus).filter is_section_heading =
      if edus = [] then [] else [Block.para "Education" Style.sectionStyle] := by
  unfold education_blocks
  split_ifs with h
  · rfl
  · rw [List.filter_append,
      filter_flatMap_nil is_section_heading education_entry_blocks
        edu_entry_no_heading edus, List.append_nil]
    rfl

theorem filter_heading_experience (exps : List Entry) :
    (experience_blocks exps).filter is_section_heading =
      if exps = [] then [] else [Block.para "Experience" Style.sectionStyle] := by
  unfold experience_blocks
  split_ifs with h
  · rfl
  · rw [List.filter_append,
      filter_flatMap_nil is_section_heading experience_entry_blocks
        exp_entry_no_heading exps, List.append_nil]
    rfl

theorem filter_heading_projects (projs : List Project) :
    (projects_blocks projs).filter is_section_heading =
      if projs = [] then [] else [Block.para "Projects" Style.sectionStyle] := by
  unfold projects_blocks
  split_ifs with h
  · rfl
  · rw [List.filter_append,
      filter_flatMap_nil is_section_heading project_entry_blocks
        proj_entry_no_heading projs, List.append_nil]
    rfl

theorem filter_heading_skills (sk : List (String × List String)) :
    (skills_blocks sk).filter is_section_heading =
      if sk = [] then [] else [Block.para "Technical Skills" Style.sectionStyle] := by
  unfold skills_blocks
  split_ifs with h
  · rfl
  · rw [List.filter_append]
    unfold render_key_value_lines
    rw [filter_map_nil is_section_heading skill_line_block (fun kv => rfl) sk,
      List.append_nil]
    rfl

/-- The section headings of a resume story, in emitted order. -/
theorem build_story_headings (r : Resume) :
    (build_story r).filter is_section_heading =
      (if r.education.getD [] = [] then []
       else [Block.para "Education" Style.sectionStyle]) ++
      (if r.experience.getD [] = [] then []
       else [Block.para "Experience" Style.sectionStyle]) ++
      (if r.projects.getD [] = [] then []
       else [Block.para "Projects" Style.sectionStyle]) ++
      (if r.skills.getD [] = [] then []
       else [Block.para "Technical Skills" Style.sectionStyle]) := by
  unfold build_story
  rw [List.filter_append, List.filter_append, List.filter_append,
    List.filter_append, filter_heading_header, filter_heading_education,
    filter_heading_experience, filter_heading_projects, filter_heading_skills,
    List.nil_append]

theorem edu_entry_no_contact (ed : Entry) :
    (education_entry_blocks ed).filter is_contact_para = [] := rfl

theorem exp_entry_no_contact (e : Entry) :
    (experience_entry_blocks e).filter is_contact_para = [] := by
  unfold experience_entry_blocks
  split_ifs <;> rfl

theorem proj_entry_no_contact (p : Project) :
    (project_entry_blocks p).filter is_contact_para = [] := by
  unfold project_entry_blocks
  split_ifs <;> rfl

theorem filter_contact_education (edus : List Entry) :
    (education_blocks edus).filter is_contact_para = [] := by
  unfold education_blocks
  split_ifs with h
  · rfl
  · rw [List.filter_append,
      filter_flatMap_nil is_contact_para education_entry_blocks
        edu_entry_no_contact edus, List.append_nil]
    rfl

theorem filter_contact_experience (exps : List Entry) :
    (experience_blocks exps).filter is_contact_para = [] := by
  unfold experience_blocks
  split_ifs with h
  · rfl
  · rw [List.filter_append,
      filter_flatMap_nil is_contact_para experience_entry_blocks
        exp_entry_no_contact exps, List.append_nil]
    rfl

theorem filter_contact_projects (projs : List Project) :
    (projects_blocks projs).filter is_contact_para = [] := by
  unfold projects_blocks
  split_ifs with h
  · rfl
  · rw [List.filter_append,
      filter_flatMap_nil is_contact_para project_entry_blocks
        proj_entry_no_contact projs, List.append_nil]
    rfl

theorem filter_contact_skills (sk : List (String × List String)) :
    (skills_blocks sk).filter is_contact_para = [] := by
  unfold skills_blocks
  split_ifs with h
  · rfl
  · rw [List.filter_append]
    unfold render_key_value_lines
    rw [filter_map_nil is_contact_para skill_line_block (fun kv => rfl) sk,
      List.append_nil]
    rfl

/-- Claim C10: the `status` string of `basics` is rendered in the header
if and only if the joined contact line is non-empty: the `Contact`-styled
paragraphs of the story are exactly the contact-line paragraph followed by
the status paragraph when the contact line is non-empty, and there are
none otherwise — in particular a status with no contact fields is never
rendered, and a non-empty contact line always emits a status paragraph,
even an empty one. -/
theorem c10_status_iff_contact (r : Resume) :
    (build_story r).filter is_contact_para =
      (if join_contact_line (r.basics.getD {}) = "" then []
       else
         [Block.para (join_contact_line (r.basics.getD {})) Style.contactStyle,
          Block.para ((r.basics.getD {}).status.getD "") Style.contactStyle]) := by
  unfold build_story
  rw [List.filter_append, List.filter_append, List.filter_append,
    List.filter_append, filter_contact_education, filter_contact_experience,
    filter_contact_projects, filter_contact_skills, List.append_nil,
    List.append_nil, List.append_nil, List.append_nil]
  unfold header_blocks
  by_cases h1 : (r.basics.getD {}).name.getD "" = "" <;>
    by_cases h2 : join_contact_line (r.basics.getD {}) = "" <;>
      simp only [h1, h2, if_true, if_false, ite_true, ite_false,
        List.nil_append, List.cons_append, List.append_nil] <;>
      rfl

/-- Claim C4: on malformed JSON both programs terminate with a fatal
parse error and leave the world untouched — in particular no output file
is created at the `--out` path. -/
theorem c4_parse_error_no_output (e : Unit) (out : FPath) (today : String)
    (w : World) :
    transfer_main (Except.error e) out w = (w, Except.error RunErr.parse) ∧
    json_to_pdf (Except.error e) out today w = (w, Except.error RunErr.parse) :=
  ⟨rfl, rfl⟩

/-- Claim C7: for a resume with skills `{"Programming": ["Python","Go"]}`
the skills block is exactly one `SkillLine` paragraph, whose text contains
`Programming:` followed by `Python, Go` (comma-space separated, in input
order). -/
theorem c7_skills_single_line :
    (build_story resume_jane).filter is_skill_line =
      [Block.para "<font name=\"Inter-Bold\">Programming:</font> Python, Go"
        Style.skillLine] ∧
    ∃ u v, "<font name=\"Inter-Bold\">Programming:</font> Python, Go" =
      u ++ "Programming:" ++ v ++ "Python, Go" :=
  ⟨by decide, ⟨"<font name=\"Inter-Bold\">", "</font> ", by decide⟩⟩

/-- Claim C1 counterexample: the cover-letter renderer is not a function
of the input document alone — on the same document and fonts, two runs on
different days emit different block sequences, because `json_to_pdf`
renders `date.today()`. -/
theorem c1_counterexample :
    cl_story app0 doc0 "November 09, 2025" ≠
      cl_story app0 doc0 "November 10, 2025" := by
  decide

/-- Claim C1 (amended): the resume story `build_story` is by construction
a function of the document alone, but the cover-letter story also depends
on the current date: for every document, rendering under two different
date strings produces different block sequences. -/
theorem c1_cl_story_date_dependent (app : Applicant) (docv : CLDocument)
    (t1 t2 : String) (h : t1 ≠ t2) :
    cl_story app docv t1 ≠ cl_story app docv t2 := by
  intro he
  have h4 := congrArg (fun l => l[4]?) he
  simp only [cl_story, List.cons_append, List.nil_append,
    List.getElem?_cons_succ, List.getElem?_cons_zero, Option.some.injEq,
    Block.para.injEq] at h4
  exact h h4.1

/-- Witness for C1's amended theorem at a concrete document and dates. -/
theorem c1_witness :
    ("November 09, 2025" : String) ≠ "November 10, 2025" ∧
    cl_story app0 doc0 "November 09, 2025" ≠
      cl_story app0 doc0 "November 10, 2025" :=
  ⟨by decide, c1_cl_story_date_dependent app0 doc0 _ _ (by decide)⟩

theorem heading_mem_cases (r : Resume) (t : String)
    (h : Block.para t Style.sectionStyle ∈ build_story r) :
    (t = "Education" ∧ r.education.getD [] ≠ []) ∨
    (t = "Experience" ∧ r.experience.getD [] ≠ []) ∨
    (t = "Projects" ∧ r.projects.getD [] ≠ []) ∨
    (t = "Technical Skills" ∧ r.skills.getD [] ≠ []) := by
  have hf : Block.para t Style.sectionStyle ∈
      (build_story r).filter is_section_heading :=
    List.mem_filter.mpr ⟨h, rfl⟩
  rw [build_story_headings] at hf
  split_ifs at hf <;> simp_all

/-- Claim C6: when the `education`, `experience`, `projects` or `skills`
field is absent or empty, the corresponding section heading paragraph
("Education", "Experience", "Projects", "Technical Skills") does not
appear among the emitted blocks. -/
theorem c6_absent_section_headings (r : Resume) :
    (r.education.getD [] = [] →
      Block.para "Education" Style.sectionStyle ∉ build_story r) ∧
    (r.experience.getD [] = [] →
      Block.para "Experience" Style.sectionStyle ∉ build_story r) ∧
    (r.projects.getD [] = [] →
      Block.para "Projects" Style.sectionStyle ∉ build_story r) ∧
    (r.skills.getD [] = [] →
      Block.para "Technical Skills" Style.sectionStyle ∉ build_story r) := by
  refine ⟨fun h hm => ?_, fun h hm => ?_, fun h hm => ?_, fun h hm => ?_⟩ <;>
    rcases heading_mem_cases r _ hm with ⟨ht, hne⟩ | ⟨ht, hne⟩ | ⟨ht, hne⟩ | ⟨ht, hne⟩ <;>
      first
        | exact hne h
        | simp at ht

/-- Witness for C6 at the empty resume. -/
theorem c6_witness :
    (({} : Resume).education.getD [] = [] ∧
     ({} : Resume).experience.getD [] = [] ∧
     ({} : Resume).projects.getD [] = [] ∧
     ({} : Resume).skills.getD [] = []) ∧
    Block.para "Education" Style.sectionStyle ∉ build_story {} ∧
    Block.para "Experience" Style.sectionStyle ∉ build_story {} ∧
    Block.para "Projects" Style.sectionStyle ∉ build_story {} ∧
    Block.para "Technical Skills" Style.sectionStyle ∉ build_story {} :=
  ⟨⟨rfl, rfl, rfl, rfl⟩,
   (c6_absent_section_headings {}).1 rfl,
   (c6_absent_section_headings {}).2.1 rfl,
   (c6_absent_section_headings {}).2.2.1 rfl,
   (c6_absent_section_headings {}).2.2.2 rfl⟩

theorem getElem?_append_mid {α : Type} (l1 l2 l3 : List α) (n k : Nat)
    (h : n = l1.length + k) (hk : k < l2.length) :
    ((l1 ++ l2) ++ l3)[n]? = l2[k]? := by
  subst h
  rw [List.getElem?_append_left (by rw [List.length_append]; omega)]
  rw [List.getElem?_append_right (Nat.le_add_right _ _)]
  congr 1
  omega

theorem getElem?_append_pair_left {α : Type} (l : List α) (a b : α) (n : Nat)
    (h : n = l.length) : (l ++ [a, b])[n]? = some a := by
  subst h
  rw [List.getElem?_append_right (le_refl _)]
  simp

theorem getElem?_append_pair_right {α : Type} (l : List α) (a b : α) (n : Nat)
    (h : n = l.length + 1) : (l ++ [a, b])[n]? = some b := by
  subst h
  rw [List.getElem?_append_right (Nat.le_add_right _ _)]
  rw [Nat.add_sub_cancel_left]
  rfl

/-- Claim C9: fixed section order.  For the resume, the section headings
of the story are exactly Education, Experience, Projects, Technical
Skills in this order (each present iff its section is), and the header
name paragraph, when present, is the very first block.  For the cover
letter, the story is the three-paragraph header and a spacer (indices
0-3), the current date at index 4, the recipient greeting at index 5, a
spacer, the body paragraphs in input order at indices 7.., and the
closing signature and name as the final two blocks. -/
theorem c9_section_order :
    (∀ r : Resume,
      (build_story r).filter is_section_heading =
        (if r.education.getD [] = [] then []
         else [Block.para "Education" Style.sectionStyle]) ++
        (if r.experience.getD [] = [] then []
         else [Block.para "Experience" Style.sectionStyle]) ++
        (if r.projects.getD [] = [] then []
         else [Block.para "Projects" Style.sectionStyle]) ++
        (if r.skills.getD [] = [] then []
         else [Block.para "Technical Skills" Style.sectionStyle])) ∧
    (∀ r : Resume, (r.basics.getD {}).name.getD "" ≠ "" →
      (build_story r).head? =
        some (Block.para ((r.basics.getD {}).name.getD "") Style.nameStyle)) ∧
    (∀ (app : Applicant) (docv : CLDocument) (today : String),
      (cl_story app docv today).length = 9 + docv.body.length ∧
      (cl_story app docv today)[4]? = some (Block.para today Style.clBody) ∧
      (cl_story app docv today)[5]? =
        some (Block.para ("Dear " ++ docv.recipient.title ++ ",")
          Style.clBody) ∧
      (∀ k, k < docv.body.length →
        (cl_story app docv today)[7 + k]? =
          (docv.body[k]?).map (fun p => Block.para p Style.clBody)) ∧
      (cl_story app docv today)[7 + docv.body.length]? =
        some (Block.para docv.closing.signature Style.clClosing) ∧
      (cl_story app docv today)[8 + docv.body.length]? =
        some (Block.para docv.closing.name Style.clBody)) := by
  refine ⟨build_story_headings, ?_, ?_⟩
  · intro r hn
    unfold build_story header_blocks
    rw [if_neg hn]
    rfl
  · intro app docv today
    refine ⟨?_, rfl, rfl, ?_, ?_, ?_⟩
    · simp only [cl_story, List.length_append, List.length_cons,
        List.length_map, List.length_nil]
      omega
    · intro k hk
      unfold cl_story
      rw [getElem?_append_mid _ _ _ (7 + k) k
        (by simp only [List.length_cons, List.length_nil]; try omega)
        (by rw [List.length_map]; exact hk)]
      rw [List.getElem?_map]
    · unfold cl_story
      refine getElem?_append_pair_left _ _ _ _ ?_
      simp only [List.length_append, List.length_cons, List.length_map,
        List.length_nil]
      try omega
    · unfold cl_story
      refine getElem?_append_pair_right _ _ _ _ ?_
      simp only [List.length_append, List.length_cons, List.length_map,
        List.length_nil]
      try omega

/-- Witness for C9 at concrete documents. -/
theorem c9_witness :
    ((build_story resume_jane).filter is_section_heading =
      (if resume_jane.education.getD [] = [] then []
       else [Block.para "Education" Style.sectionStyle]) ++
      (if resume_jane.experience.getD [] = [] then []
       else [Block.para "Experience" Style.sectionStyle]) ++
      (if resume_jane.projects.getD [] = [] then []
       else [Block.para "Projects" Style.sectionStyle]) ++
      (if resume_jane.skills.getD [] = [] then []
       else [Block.para "Technical Skills" Style.sectionStyle])) ∧
    (build_story resume_jane).head? =
      some (Block.para "Jane Doe" Style.nameStyle) ∧
    (cl_story app0 doc0 "November 09, 2025")[7 + 0]? =
      ((doc0.body[0]?).map (fun p => Block.para p Style.clBody)) :=
  ⟨c9_section_order.1 resume_jane,
   c9_section_order.2.1 resume_jane (by decide),
   (c9_section_order.2.2 app0 doc0 "November 09, 2025").2.2.2.1 0 (by decide)⟩

theorem transfer_main_ok (r : Resume) (out : FPath) (w : World)
    (h : out.dirs = [] ∨ out.dirs ∈ w.dirs) :
    transfer_main (Except.ok r) out w =
      ({ w with files := out :: w.files }, Except.ok ()) := by
  unfold transfer_main build_pdf open_write
  rw [if_pos h]

theorem transfer_main_fail (r : Resume) (out : FPath) (w : World)
    (h : ¬(out.dirs = [] ∨ out.dirs ∈ w.dirs)) :
    transfer_main (Except.ok r) out w =
      (w, Except.error RunErr.fileNotFound) := by
  unfold transfer_main build_pdf open_write
  rw [if_neg h]

theorem json_to_pdf_ok (data : CLData) (app : Applicant) (docv : CLDocument)
    (out : FPath) (today : String) (w : World)
    (ha : data.applicant = some app) (hd : data.document = some docv)
    (hdir : out.dirs ≠ []) :
    json_to_pdf (Except.ok data) out today w =
      ({ dirs := ancestorDirs out.dirs ++ w.dirs,
         files := out :: w.files }, Except.ok ()) := by
  have hmem : out.dirs ∈ ancestorDirs out.dirs ++ w.dirs :=
    List.mem_append.mpr (Or.inl (self_mem_ancestorDirs out.dirs hdir))
  simp only [json_to_pdf, ha, hd, if_neg hdir]
  unfold open_write makedirs
  rw [if_pos (Or.inr hmem)]

theorem json_to_pdf_bare (data : CLData) (app : Applicant) (docv : CLDocument)
    (out : FPath) (today : String) (w : World)
    (ha : data.applicant = some app) (hd : data.document = some docv)
    (hdir : out.dirs = []) :
    json_to_pdf (Except.ok data) out today w =
      (w, Except.error RunErr.fileNotFound) := by
  simp only [json_to_pdf, ha, hd, if_pos hdir]

/-- Claim C2 counterexample: the resume program does not create missing
parent directories — run on a valid resume with output path `sub/resume.pdf`
in a world where `sub` does not exist, it fails and writes no file. -/
theorem c2_counterexample :
    ¬((transfer_main (Except.ok resume0) out_sub w0).2 = Except.ok () ∧
      out_sub ∈ (transfer_main (Except.ok resume0) out_sub w0).1.files) := by
  intro h
  have he : (transfer_main (Except.ok resume0) out_sub w0).2 =
      Except.error RunErr.fileNotFound := rfl
  rw [he] at h
  exact Except.noConfusion h.1

/-- Claim C2 (amended): the cover-letter program creates the missing
parent directories and writes the PDF whenever the output path has a
non-empty directory part, but fails (`os.makedirs("")` raises) on a bare
filename; the resume program never creates directories: it writes the PDF
iff the output path is a bare filename or its directory already exists,
and otherwise fails leaving the world unchanged. -/
theorem c2_output_paths :
    (∀ (data : CLData) (app : Applicant) (docv : CLDocument) (out : FPath)
       (today : String) (w : World),
       data.applicant = some app → data.document = some docv →
       out.dirs ≠ [] →
       (json_to_pdf (Except.ok data) out today w).2 = Except.ok () ∧
       out ∈ (json_to_pdf (Except.ok data) out today w).1.files ∧
       ∀ d ∈ ancestorDirs out.dirs,
         d ∈ (json_to_pdf (Except.ok data) out today w).1.dirs) ∧
    (∀ (data : CLData) (app : Applicant) (docv : CLDocument) (out : FPath)
       (today : String) (w : World),
       data.applicant = some app → data.document = some docv →
       out.dirs = [] →
       json_to_pdf (Except.ok data) out today w =
         (w, Except.error RunErr.fileNotFound)) ∧
    (∀ (r : Resume) (out : FPath) (w : World),
       out.dirs = [] ∨ out.dirs ∈ w.dirs →
       (transfer_main (Except.ok r) out w).2 = Except.ok () ∧
       out ∈ (transfer_main (Except.ok r) out w).1.files) ∧
    (∀ (r : Resume) (out : FPath) (w : World),
       ¬(out.dirs = [] ∨ out.dirs ∈ w.dirs) →
       transfer_main (Except.ok r) out w =
         (w, Except.error RunErr.fileNotFound)) := by
  refine ⟨?_, ?_, ?_, ?_⟩
  · intro data app docv out today w ha hd hdir
    rw [json_to_pdf_ok data app docv out today w ha hd hdir]
    refine ⟨rfl, List.mem_cons_self _ _, ?_⟩
    intro d hdm
    exact List.mem_append.mpr (Or.inl hdm)
  · intro data app docv out today w ha hd hdir
    exact json_to_pdf_bare data app docv out today w ha hd hdir
  · intro r out w h
    rw [transfer_main_ok r out w h]
    exact ⟨rfl, List.mem_cons_self _ _⟩
  · intro r out w h
    exact transfer_main_fail r out w h

/-- Witness for C2's amended theorem at concrete inputs. -/
theorem c2_witness :
    ((json_to_pdf (Except.ok cl0) out_sub "November 09, 2025" w0).2 =
       Except.ok () ∧
     out_sub ∈
       (json_to_pdf (Except.ok cl0) out_sub "November 09, 2025" w0).1.files ∧
     ∀ d ∈ ancestorDirs out_sub.dirs,
       d ∈ (json_to_pdf (Except.ok cl0) out_sub "November 09, 2025" w0).1.dirs) ∧
    json_to_pdf (Except.ok cl0) out_bare "November 09, 2025" w0 =
      (w0, Except.error RunErr.fileNotFound) ∧
    ((transfer_main (Except.ok resume0) out_bare w0).2 = Except.ok () ∧
     out_bare ∈ (transfer_main (Except.ok resume0) out_bare w0).1.files) ∧
    transfer_main (Except.ok resume0) out_sub w0 =
      (w0, Except.error RunErr.fileNotFound) :=
  ⟨c2_output_paths.1 cl0 app0 doc0 out_sub "November 09, 2025" w0 rfl rfl
     (by decide),
   c2_output_paths.2.1 cl0 app0 doc0 out_bare "November 09, 2025" w0 rfl rfl
     rfl,
   c2_output_paths.2.2.1 resume0 out_bare w0 (Or.inl rfl),
   c2_output_paths.2.2.2 resume0 out_sub w0 (by decide)⟩

/-- Claim C5: when the cover-letter input lacks the required top-level
`applicant` or `document` key, `json_to_pdf` fails with a missing-field
error (a `KeyError`) before touching the file system — no directory is
created and no PDF is written; the resume variant by contrast succeeds on
any document whatsoever (every section read has a default), writing the
PDF whenever the output location is reachable. -/
theorem c5_required_keys :
    (∀ (data : CLData) (out : FPath) (today : String) (w : World),
       data.applicant = none ∨ data.document = none →
       (∃ k, (json_to_pdf (Except.ok data) out today w).2 =
          Except.error (RunErr.missingField k) ∧
          (k = "applicant" ∨ k = "document")) ∧
       (json_to_pdf (Except.ok data) out today w).1 = w) ∧
    (∀ (r : Resume) (out : FPath) (w : World),
       out.dirs = [] ∨ out.dirs ∈ w.dirs →
       (transfer_main (Except.ok r) out w).2 = Except.ok () ∧
       out ∈ (transfer_main (Except.ok r) out w).1.files) := by
  constructor
  · intro data out today w h
    cases hap : data.applicant with
    | none =>
      refine ⟨⟨"applicant", ?_, Or.inl rfl⟩, ?_⟩ <;>
        simp only [json_to_pdf, hap]
    | some app =>
      have hd : data.document = none := by
        rcases h with h | h
        · rw [hap] at h
          exact Option.noConfusion h
        · exact h
      refine ⟨⟨"document", ?_, Or.inr rfl⟩, ?_⟩ <;>
        simp only [json_to_pdf, hap, hd]
  · intro r out w h
    rw [transfer_main_ok r out w h]
    exact ⟨rfl, List.mem_cons_self _ _⟩

/-- Witness for C5 at concrete inputs. -/
theorem c5_witness :
    ((∃ k, (json_to_pdf (Except.ok clMissing) out_sub "November 09, 2025" w0).2 =
        Except.error (RunErr.missingField k) ∧
        (k = "applicant" ∨ k = "document")) ∧
     (json_to_pdf (Except.ok clMissing) out_sub "November 09, 2025" w0).1 = w0) ∧
    ((transfer_main (Except.ok resume0) out_bare w0).2 = Except.ok () ∧
     out_bare ∈ (transfer_main (Except.ok resume0) out_bare w0).1.files) :=
  ⟨c5_required_keys.1 clMissing out_sub "November 09, 2025" w0 (Or.inl rfl),
   c5_required_keys.2 resume0 out_bare w0 (Or.inl rfl)⟩

/-- Claim C3 counterexample: education entries are not rendered from
first-class school/degree fields with the school in the bold top row — on
a concrete entry the code's rendering differs from the claimed one (the
code puts the `role` value in the bold top row, while per the source's
own comment the school name is the `company` value). -/
theorem c3_counterexample :
    education_entry_blocks ed0 ≠ education_entry_blocks_claimed ed0 := by
  decide

/-- Claim C3 (amended): each education entry is rendered from the aliased
`company`/`role` JSON keys, with the roles swapped relative to the
source's own comment: the bold top row shows the value of the `role` key
(the degree, per the comment) with the dates right-aligned, and the
italic sub-row shows the value of the `company` key (the school) with the
location on the right, as adjacent rows of the story. -/
theorem c3_education_rows (r : Resume) (eds : List Entry) (ed : Entry)
    (h1 : r.education = some eds) (h2 : ed ∈ eds) :
    ∃ u v, build_story r =
      u ++ [table_line (ed.role.getD "") (ed.dates.getD "") true,
            table_line (ed.company.getD "") (ed.location.getD "") false]
        ++ v := by
  obtain ⟨s, t, rfl⟩ := List.append_of_mem h2
  have hne : s ++ ed :: t ≠ ([] : List Entry) := by simp
  refine ⟨header_blocks (r.basics.getD {}) ++ render_section_title "Education"
      ++ s.flatMap education_entry_blocks,
    [Block.spacerB 100] ++ t.flatMap education_entry_blocks
      ++ experience_blocks (r.experience.getD [])
      ++ projects_blocks (r.projects.getD [])
      ++ skills_blocks (r.skills.getD []), ?_⟩
  unfold build_story
  rw [h1, Option.getD_some]
  have hstep : education_blocks (s ++ ed :: t) =
      render_section_title "Education"
        ++ (s.flatMap education_entry_blocks
          ++ (education_entry_blocks ed ++ t.flatMap education_entry_blocks)) := by
    unfold education_blocks
    rw [if_neg hne, List.flatMap_append, List.flatMap_cons]
  rw [hstep]
  unfold education_entry_blocks
  simp [List.append_assoc]

/-- Witness for C3's amended theorem at a concrete resume. -/
theorem c3_witness :
    ∃ u v, build_story resume_edu =
      u ++ [table_line (ed0.role.getD "") (ed0.dates.getD "") true,
            table_line (ed0.company.getD "") (ed0.location.getD "") false]
        ++ v :=
  c3_education_rows resume_edu [ed0] ed0 rfl (List.mem_singleton.mpr rfl)

theorem mem_bulletItems_trim (bs : List String) (b : String)
    (h : b ∈ bulletItems bs) : py_strip b ≠ "" := by
  have h2 := (List.mem_filter.mp h).2
  simp only [Bool.and_eq_true, bne_iff_ne, ne_eq] at h2
  exact h2.2

theorem bullets_not_mem_header (its : List String) (b : Basics) :
    Block.bullets its ∉ header_blocks b := by
  unfold header_blocks
  by_cases h1 : b.name.getD "" = "" <;>
    by_cases h2 : join_contact_line b = "" <;> simp [h1, h2]

theorem bullets_not_mem_title (its : List String) (t : String) :
    Block.bullets its ∉ render_section_title t := by
  simp [render_section_title]

theorem bullets_not_mem_education (its : List String) (edus : List Entry) :
    Block.bullets its ∉ education_blocks edus := by
  unfold education_blocks
  split_ifs with h
  · simp
  · intro hm
    rcases List.mem_append.mp hm with hm | hm
    · exact bullets_not_mem_title its "Education" hm
    · rw [List.mem_flatMap] at hm
      obtain ⟨ed, _, hmm⟩ := hm
      simp [education_entry_blocks, table_line] at hmm

theorem bullets_mem_experience (its : List String) (exps : List Entry)
    (h : Block.bullets its ∈ experience_blocks exps) :
    ∃ e, e ∈ exps ∧ its = bulletItems (e.bullets.getD []) := by
  unfold experience_blocks at h
  split_ifs at h with hne
  · simp at h
  · rcases List.mem_append.mp h with h | h
    · exact absurd h (bullets_not_mem_title its "Experience")
    · rw [List.mem_flatMap] at h
      obtain ⟨e, he, hm⟩ := h
      refine ⟨e, he, ?_⟩
      unfold experience_entry_blocks at hm
      by_cases hb : e.bullets.getD [] = [] <;>
        simp [hb, table_line, bullet_list] at hm
      exact hm

theorem bullets_mem_projects (its : List String) (projs : List Project)
    (h : Block.bullets its ∈ projects_blocks projs) :
    ∃ p, p ∈ projs ∧ its = bulletItems (p.bullets.getD []) := by
  unfold projects_blocks at h
  split_ifs at h with hne
  · simp at h
  · rcases List.mem_append.mp h with h | h
    · exact absurd h (bullets_not_mem_title its "Projects")
    · rw [List.mem_flatMap] at h
      obtain ⟨p, hp, hm⟩ := h
      refine ⟨p, hp, ?_⟩
      unfold project_entry_blocks at hm
      by_cases hb : p.bullets.getD [] = [] <;>
        simp [hb, table_line, bullet_list] at hm
      exact hm

theorem bullets_not_mem_skills (its : List String)
    (sk : List (String × List String)) :
    Block.bullets its ∉ skills_blocks sk := by
  unfold skills_blocks
  split_ifs with h
  · simp
  · intro hm
    rcases List.mem_append.mp hm with hm | hm
    · exact bullets_not_mem_title its "Technical Skills" hm
    · unfold render_key_value_lines at hm
      rw [List.mem_map] at hm
      obtain ⟨kv, _, hmm⟩ := hm
      simp [skill_line_block] at hmm

/-- Claim C8: empty or whitespace-only bullet entries are dropped before
rendering — every item of every bullet-list block of a resume story has
non-empty trimmed text, and a bullets list whose entries are all
empty/whitespace filters to no items at all. -/
theorem c8_bullet_filtering :
    (∀ (r : Resume) (its : List String),
       Block.bullets its ∈ build_story r → ∀ b ∈ its, py_strip b ≠ "") ∧
    (∀ bs : List String, (∀ b ∈ bs, py_strip b = "") → bulletItems bs = []) := by
  constructor
  · intro r its h b hb
    unfold build_story at h
    simp only [List.mem_append] at h
    rcases h with ((((h | h) | h) | h) | h)
    · exact absurd h (bullets_not_mem_header its _)
    · exact absurd h (bullets_not_mem_education its _)
    · obtain ⟨e, _, rfl⟩ := bullets_mem_experience its _ h
      exact mem_bulletItems_trim _ b hb
    · obtain ⟨p, _, rfl⟩ := bullets_mem_projects its _ h
      exact mem_bulletItems_trim _ b hb
    · exact absurd h (bullets_not_mem_skills its _)
  · intro bs h
    unfold bulletItems
    rw [List.filter_eq_nil_iff]
    intro a ha
    simp [h a ha]

/-- Witness for C8 at concrete inputs. -/
theorem c8_witness :
    (∀ b ∈ ["Did things"], py_strip b ≠ "") ∧ bulletItems ["", "   "] = [] :=
  ⟨c8_bullet_filtering.1 resume_exp ["Did things"] (by decide),
   c8_bullet_filtering.2 ["", "   "] (by decide)⟩
